import Mathlib

/-!
Verification of the apps-cli-plugin workload commands.

This file shallowly embeds the workload command logic of the repository:
the `WorkloadOptions` flag set and its `ApplyOptionsToWorkload` merge
algorithm, `LoadInputWorkload`, the `Update` and `Create` submit flows
(`pkg/commands/workload.go`), and `WorkloadCreateOptions.Exec`
(`pkg/commands/workload_create.go`), together with the wait/watch phase.

Kubernetes client calls, the interactive prompt, the registry push and the
watch stream are modelled as an explicit environment (`ClusterEnv`) whose
fields give the outcome of each external interaction; the command logic is
then a pure function from options and environment to a result trace
(`ExecOut`): returned error, attempted cluster writes, printed lines, and
whether an interactive prompt was shown.

Helper packages of the repository that are not part of the extracted
sources (pkg/apis merge methods, pkg/cli-runtime/parsers, printer
diffing, the wait package) are modelled from the spec and from the flag
documentation; each such definition carries a doc comment saying so.
-/

/-- A Kubernetes status condition (metav1.Condition restricted to the
fields the workload logic reads). -/
structure Condition where
  condType : String
  status : String
  reason : String
  message : String
deriving DecidableEq, Repr

/-- Embeds cartov1alpha1.GitRef. -/
structure GitRef where
  branch : String
  commit : String
  tag : String
deriving DecidableEq, Repr

/-- Embeds cartov1alpha1.GitSource. -/
structure GitSource where
  url : String
  ref : GitRef
deriving DecidableEq, Repr

/-- Embeds cartov1alpha1.Source: git, image and subPath alternatives of a
workload source. -/
structure Source where
  git : Option GitSource
  image : String
  subPath : String
deriving DecidableEq, Repr

/-- Embeds corev1.EnvVar restricted to name and literal value. -/
structure EnvVar where
  name : String
  value : String
deriving DecidableEq, Repr

/-- Embeds cartov1alpha1.MavenSource. -/
structure MavenSource where
  groupId : String
  artifactId : String
  version : String
  mavenType : Option String
deriving DecidableEq, Repr

/-- The value of a workload param: a plain string, a YAML/JSON object kept
as its source text, or a maven source coordinate. -/
inductive ParamValue where
  | str (s : String)
  | obj (yaml : String)
  | maven (m : MavenSource)
deriving DecidableEq, Repr

/-- Embeds cartov1alpha1.Param. -/
structure Param where
  name : String
  value : ParamValue
deriving DecidableEq, Repr

/-- Embeds cartov1alpha1.WorkloadServiceClaim; the object reference is
kept as its textual form. -/
structure ServiceClaim where
  name : String
  ref : String
deriving DecidableEq, Repr

/-- Embeds corev1.ResourceRequirements: resource name to quantity text. -/
structure Resources where
  limits : List (String × String)
  requests : List (String × String)
deriving DecidableEq, Repr

/-- Embeds cartov1alpha1.WorkloadSpec restricted to the fields the CLI
merges.  The reserved "annotations" param is kept as its own key-value
list `annotationParams`. -/
structure WorkloadSpec where
  params : List Param
  annotationParams : List (String × String)
  source : Option Source
  image : String
  env : List EnvVar
  buildEnv : List EnvVar
  serviceClaims : List ServiceClaim
  resources : Option Resources
  serviceAccountName : String
deriving DecidableEq, Repr

/-- Embeds cartov1alpha1.Workload: metadata (name, namespace, labels,
service-claim metadata entries), spec, and status conditions.  The Go
field Namespace is called `nsName` because namespace is a Lean keyword. -/
structure Workload where
  name : String := ""
  nsName : String := ""
  labels : List (String × String) := []
  claimNotes : List (String × String) := []
  spec : WorkloadSpec := ⟨[], [], none, "", [], [], [], none, ""⟩
  conditions : List Condition := []
deriving DecidableEq, Repr

/-- The zero Workload value, as produced by `&cartov1alpha1.Workload{}`. -/
def emptyWorkload : Workload := {}

/-- Flag default of --wait-timeout in DefineFlags: 10*time.Minute, in
nanoseconds. -/
def defaultWaitTimeout : Nat := 10 * 60 * 1000000000

/-- Embeds commands.WorkloadOptions (workload.go).  Duration is carried in
nanoseconds; the Go field Namespace is called `nsName` and Type is called
`workloadType` because of Lean keywords. -/
structure WorkloadOptions where
  nsName : String := ""
  name : String := ""
  app : String := ""
  workloadType : String := ""
  labels : List String := []
  annotations : List String := []
  params : List String := []
  paramsYaml : List String := []
  debug : Bool := false
  liveUpdate : Bool := false
  filePath : String := ""
  gitRepo : String := ""
  gitCommit : String := ""
  gitBranch : String := ""
  gitTag : String := ""
  sourceImage : String := ""
  localPath : String := ""
  image : String := ""
  subPath : String := ""
  buildEnv : List String := []
  env : List String := []
  serviceRefs : List String := []
  serviceAccountName : String := ""
  limitCPU : String := ""
  limitMemory : String := ""
  mavenGroup : String := ""
  mavenArtifact : String := ""
  mavenVersion : String := ""
  mavenType : String := ""
  requestCPU : String := ""
  requestMemory : String := ""
  wait : Bool := false
  waitTimeout : Nat := defaultWaitTimeout
  tail : Bool := false
  tailTimestamps : Bool := false
  dryRun : Bool := false
  yes : Bool := false
deriving Repr

/-- The cobra command context consulted through
cli.CommandFromContext(ctx).Flags().Changed: the set of flag names the
user explicitly set on the command line. -/
structure CmdCtx where
  changed : List String := []
deriving Repr

/-- A context in which no flag was explicitly changed. -/
def emptyCtx : CmdCtx := {}

/-- Embeds Flags().Changed(name) for the given command context. -/
def flagChanged (ctx : CmdCtx) (flag : String) : Bool :=
  ctx.changed.contains flag

/-- Assoc-list read, embedding Go map lookup `m[k]`. -/
def lookupA {β : Type} : List (String × β) → String → Option β
  | [], _ => none
  | (k', v) :: rest, k => if k' = k then some v else lookupA rest k

/-- Assoc-list write, embedding Go map write `m[k] = v`: replaces an
existing binding in place or appends a new one. -/
def setKV {β : Type} : List (String × β) → String → β → List (String × β)
  | [], k, v => [(k, v)]
  | (k', v') :: rest, k, v =>
      if k' = k then (k, v) :: rest else (k', v') :: setKV rest k v

/-- Assoc-list delete, embedding Go `delete(m, k)`. -/
def delKV {β : Type} (m : List (String × β)) (k : String) : List (String × β) :=
  m.filter (fun p => !(p.1 == k))

/-- Update-or-append of an env var by name, embedding the
MergeEnv/MergeBuildEnv list semantics. -/
def setEnvVar : List EnvVar → EnvVar → List EnvVar
  | [], e => [e]
  | x :: rest, e => if x.name = e.name then e :: rest else x :: setEnvVar rest e

/-- Removal of an env var by name. -/
def delEnvVar (l : List EnvVar) (n : String) : List EnvVar :=
  l.filter (fun x => !(x.name == n))

/-- Env var value lookup by name. -/
def lookupEnvVar : List EnvVar → String → Option String
  | [], _ => none
  | x :: rest, n => if x.name = n then some x.value else lookupEnvVar rest n

/-- Update-or-append of a param by name, embedding MergeParams. -/
def setParam : List Param → String → ParamValue → List Param
  | [], n, v => [⟨n, v⟩]
  | p :: rest, n, v => if p.name = n then ⟨n, v⟩ :: rest else p :: setParam rest n v

/-- Removal of a param by name, embedding RemoveParam. -/
def delParam (l : List Param) (n : String) : List Param :=
  l.filter (fun p => !(p.name == n))

/-- Param value lookup by name. -/
def lookupParam : List Param → String → Option ParamValue
  | [], _ => none
  | p :: rest, n => if p.name = n then some p.value else lookupParam rest n

/-- Update-or-append of a service claim by name, embedding
MergeServiceClaim. -/
def setClaim : List ServiceClaim → ServiceClaim → List ServiceClaim
  | [], c => [c]
  | x :: rest, c => if x.name = c.name then c :: rest else x :: setClaim rest c

/-- Removal of a service claim by name, embedding DeleteServiceClaim. -/
def delClaim (l : List ServiceClaim) (n : String) : List ServiceClaim :=
  l.filter (fun x => !(x.name == n))

/-- Service claim reference lookup by name. -/
def lookupClaim : List ServiceClaim → String → Option String
  | [], _ => none
  | x :: rest, n => if x.name = n then some x.ref else lookupClaim rest n

/-- Splits a character list at its first '=', when present. -/
def splitEq : List Char → Option (List Char × List Char)
  | [] => none
  | c :: rest =>
      if c = '=' then some ([], rest)
      else
        match splitEq rest with
        | none => none
        | some (k, v) => some (c :: k, v)

/-- Modelled from the spec: parsers.DeletableKeyValue of
pkg/cli-runtime/parsers is not under src.  Per the flag documentation in
DefineFlags, a flag value is a "key=value" pair, and "key-" (a trailing
dash, no "=") deletes the key; the value is split on the first "=". -/
def DeletableKeyValue (s : String) : List String :=
  let cs := s.toList
  if (cs.getLast? = some '-') && !(cs.contains '=') then
    [String.mk cs.dropLast]
  else
    match splitEq cs with
    | none => [s]
    | some (k, v) => [String.mk k, String.mk v]

/-- Modelled from the spec: parsers.DeletableEnvVar of
pkg/cli-runtime/parsers is not under src.  Per the flag documentation, an
env flag is a "key=value" pair and "key-" requests deletion; the returned
Bool is the deletion marker. -/
def DeletableEnvVar (s : String) : EnvVar × Bool :=
  match DeletableKeyValue s with
  | [k] => (⟨k, ""⟩, true)
  | k :: v :: _ => (⟨k, v⟩, false)
  | [] => (⟨s, ""⟩, false)

/-- Modelled from the spec: parsers.ObjectReference is not under src; it
parses "apiVersion:kind:name" into a typed object reference, kept here in
its textual form. -/
def ObjectReference (s : String) : String := s

/-- Modelled from the spec: parsers.ObjectReferenceAnnotation is not under
src; it yields a metadata entry only for the extended (cross-namespace)
service reference form, modelled as a reference text of at least four
colon-separated segments. -/
def objectReferenceNote (s : String) : Option String :=
  if 3 ≤ (s.toList.filter (fun c => c = ':')).length then some s else none

/-- Modelled from the spec: Workload.MergeLabels of pkg/apis is not under
src; field-by-field reconciliation sets the label key to the value. -/
def Workload.MergeLabels (w : Workload) (k v : String) : Workload :=
  { w with labels := setKV w.labels k v }

/-- Modelled from the spec: WorkloadSpec.MergeParams of pkg/apis is not
under src; sets the named param, replacing an existing one. -/
def WorkloadSpec.MergeParams (s : WorkloadSpec) (n : String) (v : ParamValue) : WorkloadSpec :=
  { s with params := setParam s.params n v }

/-- Modelled from the spec: WorkloadSpec.RemoveParam of pkg/apis is not
under src; removes the named param. -/
def WorkloadSpec.RemoveParam (s : WorkloadSpec) (n : String) : WorkloadSpec :=
  { s with params := delParam s.params n }

/-- Modelled from the spec: WorkloadSpec.MergeAnnotationParams of pkg/apis
is not under src; sets a key of the reserved "annotations" param. -/
def WorkloadSpec.MergeAnnotationParams (s : WorkloadSpec) (k v : String) : WorkloadSpec :=
  { s with annotationParams := setKV s.annotationParams k v }

/-- Modelled from the spec: WorkloadSpec.RemoveAnnotationParams of
pkg/apis is not under src; removes a key of the reserved "annotations"
param. -/
def WorkloadSpec.RemoveAnnotationParams (s : WorkloadSpec) (k : String) : WorkloadSpec :=
  { s with annotationParams := delKV s.annotationParams k }

/-- Modelled from the spec: WorkloadSpec.MergeGit of pkg/apis is not under
src; replaces the source with the given git source, keeping the subPath of
a previous source. -/
def WorkloadSpec.MergeGit (s : WorkloadSpec) (g : GitSource) : WorkloadSpec :=
  { s with
    source := some
      { git := some g
        image := ""
        subPath := (match s.source with | some src => src.subPath | none => "") } }

/-- Modelled from the spec: WorkloadSpec.MergeSourceImage of pkg/apis is
not under src; replaces the source with the given source image, keeping
the subPath of a previous source. -/
def WorkloadSpec.MergeSourceImage (s : WorkloadSpec) (img : String) : WorkloadSpec :=
  { s with
    source := some
      { git := none
        image := img
        subPath := (match s.source with | some src => src.subPath | none => "") } }

/-- Modelled from the spec: WorkloadSpec.MergeSubPath of pkg/apis is not
under src; sets the subPath of the source, creating the source when
absent. -/
def WorkloadSpec.MergeSubPath (s : WorkloadSpec) (p : String) : WorkloadSpec :=
  match s.source with
  | some src => { s with source := some { src with subPath := p } }
  | none => { s with source := some { git := none, image := "", subPath := p } }

/-- Modelled from the spec: WorkloadSpec.MergeImage of pkg/apis is not
under src; sets the pre-built image of the workload. -/
def WorkloadSpec.MergeImage (s : WorkloadSpec) (img : String) : WorkloadSpec :=
  { s with image := img }

/-- Modelled from the spec: WorkloadSpec.MergeEnv of pkg/apis is not under
src; replaces the env var of the same name or appends it. -/
def WorkloadSpec.MergeEnv (s : WorkloadSpec) (e : EnvVar) : WorkloadSpec :=
  { s with env := setEnvVar s.env e }

/-- Modelled from the spec: WorkloadSpec.RemoveEnv of pkg/apis is not
under src; removes the env var of the given name. -/
def WorkloadSpec.RemoveEnv (s : WorkloadSpec) (n : String) : WorkloadSpec :=
  { s with env := delEnvVar s.env n }

/-- Modelled from the spec: WorkloadSpec.MergeBuildEnv of pkg/apis is not
under src; replaces the build env var of the same name or appends it. -/
def WorkloadSpec.MergeBuildEnv (s : WorkloadSpec) (e : EnvVar) : WorkloadSpec :=
  { s with buildEnv := setEnvVar s.buildEnv e }

/-- Modelled from the spec: WorkloadSpec.RemoveBuildEnv of pkg/apis is not
under src; removes the build env var of the given name. -/
def WorkloadSpec.RemoveBuildEnv (s : WorkloadSpec) (n : String) : WorkloadSpec :=
  { s with buildEnv := delEnvVar s.buildEnv n }

/-- Modelled from the spec: WorkloadSpec.MergeServiceClaim of pkg/apis is
not under src; replaces the service claim of the same name or appends
it. -/
def WorkloadSpec.MergeServiceClaim (s : WorkloadSpec) (c : ServiceClaim) : WorkloadSpec :=
  { s with serviceClaims := setClaim s.serviceClaims c }

/-- Modelled from the spec: WorkloadSpec.DeleteServiceClaim of pkg/apis is
not under src; removes the service claim of the given name. -/
def WorkloadSpec.DeleteServiceClaim (s : WorkloadSpec) (n : String) : WorkloadSpec :=
  { s with serviceClaims := delClaim s.serviceClaims n }

/-- Modelled from the spec: Workload.MergeServiceClaimAnnotation of
pkg/apis is not under src; records the extended service-claim reference in
workload metadata. -/
def Workload.mergeClaimNote (w : Workload) (k v : String) : Workload :=
  { w with claimNotes := setKV w.claimNotes k v }

/-- Modelled from the spec: Workload.DeleteServiceClaimAnnotation of
pkg/apis is not under src; removes the service-claim metadata entry. -/
def Workload.deleteClaimNote (w : Workload) (k : String) : Workload :=
  { w with claimNotes := delKV w.claimNotes k }

/-- Pointwise merge of two resource lists (update wins). -/
def mergeKVs (base upd : List (String × String)) : List (String × String) :=
  List.foldl (fun acc p => setKV acc p.1 p.2) base upd

/-- Modelled from the spec: WorkloadSpec.MergeResources of pkg/apis is not
under src; merges the given limits and requests into the existing resource
requirements, creating them when absent. -/
def WorkloadSpec.MergeResources (s : WorkloadSpec) (r : Resources) : WorkloadSpec :=
  match s.resources with
  | none => { s with resources := some r }
  | some r0 =>
    { s with
      resources := some
        { limits := mergeKVs r0.limits r.limits
          requests := mergeKVs r0.requests r.requests } }

/-- Modelled from the spec: WorkloadSpec.MergeMavenSource of pkg/apis is
not under src; stores the maven coordinates as the reserved "maven"
param. -/
def WorkloadSpec.MergeMavenSource (s : WorkloadSpec) (m : MavenSource) : WorkloadSpec :=
  { s with params := setParam s.params "maven" (.maven m) }

/-- Modelled from the spec: WorkloadSpec.MergeServiceAccountName of
pkg/apis is not under src; sets the service account name. -/
def WorkloadSpec.MergeServiceAccountName (s : WorkloadSpec) (n : String) : WorkloadSpec :=
  { s with serviceAccountName := n }

/-- Modelled from the spec: parsers.JsonYamlToObject is not under src; it
parses the JSON/YAML text of a --params-yaml value (errors are caught
during the validation phase), kept here as the source text. -/
def JsonYamlToObject (s : String) : Option ParamValue := some (.obj s)

/-- apis.AppPartOfLabelName. -/
def AppPartOfLabelName : String := "app.kubernetes.io/part-of"

/-- apis.WorkloadTypeLabelName (value seen in the test data). -/
def WorkloadTypeLabelName : String := "apps.tanzu.vmware.com/workload-type"

/-- MavenOverwrittenNoticeMsg of workload.go. -/
def MavenOverwrittenNoticeMsg : String :=
  "Maven configuration flags have overwritten values provided by \"--params-yaml\"."

/-- One iteration of the labels loop of ApplyOptionsToWorkload. -/
def applyLabelFlag (w : Workload) (s : String) : Workload :=
  match DeletableKeyValue s with
  | [k] => { w with labels := delKV w.labels k }
  | k :: v :: _ => w.MergeLabels k v
  | [] => w

/-- One iteration of the annotations loop of ApplyOptionsToWorkload. -/
def applyAnnotationFlag (w : Workload) (s : String) : Workload :=
  match DeletableKeyValue s with
  | [k] => { w with spec := w.spec.RemoveAnnotationParams k }
  | k :: v :: _ => { w with spec := w.spec.MergeAnnotationParams k v }
  | [] => w

/-- One iteration of the params loop of ApplyOptionsToWorkload. -/
def applyParamFlag (w : Workload) (s : String) : Workload :=
  match DeletableKeyValue s with
  | [k] => { w with spec := w.spec.RemoveParam k }
  | k :: v :: _ => { w with spec := w.spec.MergeParams k (.str v) }
  | [] => w

/-- One iteration of the params-yaml loop of ApplyOptionsToWorkload,
threading the notice messages stashed on the context.  When the maven
source was already set via flags, the "maven" key is skipped and the
maven-overwritten notice is stashed. -/
def applyParamYamlFlag (mavenViaFlags : Bool) (acc : Workload × List String) (s : String) :
    Workload × List String :=
  match DeletableKeyValue s with
  | [k] => ({ acc.1 with spec := acc.1.spec.RemoveParam k }, acc.2)
  | k :: v :: _ =>
      if k = "maven" && mavenViaFlags then
        (acc.1, acc.2 ++ [MavenOverwrittenNoticeMsg])
      else
        match JsonYamlToObject v with
        | some o => ({ acc.1 with spec := acc.1.spec.MergeParams k o }, acc.2)
        | none => (acc.1, acc.2)
  | [] => acc

/-- One iteration of the env loop of ApplyOptionsToWorkload. -/
def applyEnvFlag (w : Workload) (s : String) : Workload :=
  let pd := DeletableEnvVar s
  if pd.2 then { w with spec := w.spec.RemoveEnv pd.1.name }
  else { w with spec := w.spec.MergeEnv pd.1 }

/-- One iteration of the build-env loop of ApplyOptionsToWorkload. -/
def applyBuildEnvFlag (w : Workload) (s : String) : Workload :=
  let pd := DeletableEnvVar s
  if pd.2 then { w with spec := w.spec.RemoveBuildEnv pd.1.name }
  else { w with spec := w.spec.MergeBuildEnv pd.1 }

/-- One iteration of the service-ref loop of ApplyOptionsToWorkload. -/
def applyServiceRefFlag (w : Workload) (s : String) : Workload :=
  match DeletableKeyValue s with
  | [k] => Workload.deleteClaimNote { w with spec := w.spec.DeleteServiceClaim k } k
  | k :: v :: _ =>
      let w1 : Workload := { w with spec := w.spec.MergeServiceClaim ⟨k, ObjectReference v⟩ }
      match objectReferenceNote v with
      | some nv => w1.mergeClaimNote k nv
      | none => w1.deleteClaimNote k
  | [] => w

/-- Embeds WorkloadOptions.ApplyOptionsToWorkload (workload.go lines
202-390): reconciles each set CLI flag field by field onto the loaded
workload, in source order; returns the reconciled workload together with
the notice messages stashed on the context. -/
def ApplyOptionsToWorkload (ctx : CmdCtx) (opts : WorkloadOptions) (w0 : Workload) :
    Workload × List String :=
  let w := List.foldl applyLabelFlag w0 opts.labels
  let w := List.foldl applyAnnotationFlag w opts.annotations
  let w := List.foldl applyParamFlag w opts.params
  let mavenViaFlags : Bool :=
    (opts.mavenArtifact != "") || (opts.mavenVersion != "") ||
    (opts.mavenGroup != "") || (opts.mavenType != "")
  let w :=
    if mavenViaFlags then
      { w with
        spec := w.spec.MergeMavenSource
          { artifactId := if flagChanged ctx "maven-artifact" then opts.mavenArtifact else ""
            version := if flagChanged ctx "maven-version" then opts.mavenVersion else ""
            groupId := if flagChanged ctx "maven-group" then opts.mavenGroup else ""
            mavenType := if flagChanged ctx "maven-type" then some opts.mavenType else none } }
    else w
  let wn := List.foldl (applyParamYamlFlag mavenViaFlags) (w, []) opts.paramsYaml
  let w := wn.1
  let notices := wn.2
  let w := if opts.app ≠ "" then w.MergeLabels AppPartOfLabelName opts.app else w
  let w := if opts.workloadType ≠ "" then w.MergeLabels WorkloadTypeLabelName opts.workloadType else w
  let w :=
    if opts.debug then { w with spec := w.spec.MergeParams "debug" (.str "true") }
    else if flagChanged ctx "debug" then { w with spec := w.spec.RemoveParam "debug" }
    else w
  let w :=
    if opts.liveUpdate then { w with spec := w.spec.MergeParams "live-update" (.str "true") }
    else if flagChanged ctx "live-update" then { w with spec := w.spec.RemoveParam "live-update" }
    else w
  let w :=
    if opts.gitRepo ≠ "" ∨ opts.gitBranch ≠ "" ∨ opts.gitCommit ≠ "" ∨ opts.gitTag ≠ "" then
      { w with
        spec := w.spec.MergeGit
          { url := opts.gitRepo
            ref := { branch := opts.gitBranch, commit := opts.gitCommit, tag := opts.gitTag } } }
    else w
  let w := if opts.sourceImage ≠ "" then { w with spec := w.spec.MergeSourceImage opts.sourceImage } else w
  let w := if flagChanged ctx "sub-path" then { w with spec := w.spec.MergeSubPath opts.subPath } else w
  let w := if opts.image ≠ "" then { w with spec := w.spec.MergeImage opts.image } else w
  let w := List.foldl applyEnvFlag w opts.env
  let w := List.foldl applyBuildEnvFlag w opts.buildEnv
  let w := List.foldl applyServiceRefFlag w opts.serviceRefs
  let w :=
    if opts.limitCPU ≠ "" then
      { w with spec := w.spec.MergeResources { limits := [("cpu", opts.limitCPU)], requests := [] } }
    else w
  let w :=
    if opts.limitMemory ≠ "" then
      { w with spec := w.spec.MergeResources { limits := [("memory", opts.limitMemory)], requests := [] } }
    else w
  let w :=
    if opts.requestCPU ≠ "" then
      { w with spec := w.spec.MergeResources { limits := [], requests := [("cpu", opts.requestCPU)] } }
    else w
  let w :=
    if opts.requestMemory ≠ "" then
      { w with spec := w.spec.MergeResources { limits := [], requests := [("memory", opts.requestMemory)] } }
    else w
  let w :=
    if flagChanged ctx "service-account" then
      { w with spec := w.spec.MergeServiceAccountName opts.serviceAccountName }
    else w
  (w, notices)

/-- An error surfaced by an external interaction (Kubernetes client,
file loading, watch deadline). -/
inductive CErr where
  | notFound
  | conflict
  | deadline
  | msg (s : String)
deriving DecidableEq, Repr

/-- An error returned by a command: the underlying error and whether
cli.SilenceError wrapped it (suppressing cobra's own printing). -/
structure CmdError where
  err : CErr
  silenced : Bool
deriving DecidableEq, Repr

/-- Embeds cli.SilenceError: wraps an error so the CLI runtime does not
print it again (the helper lives in pkg/cli-runtime, not under src; its
behaviour is the silenced marker). -/
def SilenceError (e : CErr) : CmdError := ⟨e, true⟩

/-- A mutating call submitted through the Kubernetes client. -/
inductive ClusterOp where
  | create (w : Workload)
  | update (w : Workload)
deriving DecidableEq, Repr

instance exceptDecEq {e a : Type} [DecidableEq e] [DecidableEq a] : DecidableEq (Except e a) := fun x y =>
  match x, y with
  | .ok u, .ok v => if h : u = v then .isTrue (by rw [h]) else .isFalse (by simp [h])
  | .error u, .error v => if h : u = v then .isTrue (by rw [h]) else .isFalse (by simp [h])
  | .ok _, .error _ => .isFalse (by simp)
  | .error _, .ok _ => .isFalse (by simp)

/-- The observable outcome of a command invocation: the returned error (if
any), the cluster writes attempted through the client in order, the lines
printed, and whether an interactive confirmation survey was shown. -/
structure ExecOut where
  res : Except CmdError Unit
  writes : List ClusterOp
  output : List String
  prompted : Bool
deriving DecidableEq, Repr

/-- The environment of one invocation: outcomes of every external
interaction.  `files` maps a path to its parsed workload (`none` marks an
unparseable file); `stdin` is the parsed standard input, if parseable;
`getExisting` is the client Get of the requested workload; `nsGet` is the
error of the namespace Get, if any; `createErr`/`updateErr` are the
client Create/Update outcomes; `promptAnswer` is the survey answer
(`none` marks a survey error); `publish` is the local-source publish
outcome (error, declined, or the workload with the pushed digest); and
`watchEvents` are the workloads delivered by the watcher before the wait
deadline. -/
structure ClusterEnv where
  files : List (String × Option Workload) := []
  stdin : Option Workload := none
  getExisting : Except CErr Workload := .error .notFound
  nsGet : Option CErr := none
  createErr : Option CErr := none
  updateErr : Option CErr := none
  promptAnswer : Option Bool := none
  publish : Except CErr (Option Workload) := .ok none
  watchEvents : List Workload := []
deriving Repr

/-- Renders a value in double quotes, as the Go %q verb does for the
strings appearing in this code. -/
def quoteStr (s : String) : String := "\"" ++ s ++ "\""

/-- Modelled from the spec: the Go time.Duration rendering used by the %s
verb is external; durations are shown in nanoseconds. -/
def showDuration (n : Nat) : String := toString n ++ "ns"

/-- Output line of the no-change branch of WorkloadOptions.Update. -/
def unchangedMsg : String := "Workload is unchanged, skipping update"

/-- Output line of Update/Create when input came from stdin and --yes was
not given. -/
def cannotConfirmMsg : String :=
  "Skipping workload, cannot confirm intent. Run command with --yes flag to confirm intent when providing input from stdin"

/-- Output line of Update on a conflict error. -/
def conflictMsg : String :=
  "Error: conflict updating workload, the object was modified by another user; please run the update command again"

/-- Output line when the user declines the confirmation survey. -/
def skippingMsg (n : String) : String := "Skipping workload " ++ quoteStr n

/-- Success line of Update. -/
def updatedMsg (n : String) : String := "Updated workload " ++ quoteStr n

/-- Success line of Create. -/
def createdMsg (n : String) : String := "Created workload " ++ quoteStr n

/-- Error line of WorkloadCreateOptions.Exec when the workload already
exists. -/
def alreadyExistsMsg (ns n : String) : String :=
  "Error: workload " ++ quoteStr (ns ++ "/" ++ n) ++ " already exists"

/-- Error line of validateNamespace. -/
def nsNotFoundMsg (ns : String) : String :=
  "Error: namespace " ++ quoteStr ns ++ " not found, it may not exist or user does not have permissions to read it."

/-- Waiting line of WorkloadCreateOptions.Exec. -/
def waitingMsg (n : String) : String :=
  "Waiting for workload " ++ quoteStr n ++ " to become ready..."

/-- Ready line of WorkloadCreateOptions.Exec. -/
def readyMsg (n : String) : String := "Workload " ++ quoteStr n ++ " is ready"

/-- Timeout line of WorkloadCreateOptions.Exec. -/
def timeoutMsg (d : Nat) (n : String) : String :=
  "Error: timeout after " ++ showDuration d ++ " waiting for " ++ quoteStr n ++ " to become ready"

/-- Modelled from the spec: printer.ResourceDiff is a thin wrapper over an
external YAML diff library; its rendered text is abstracted to a marker
naming both sides, and it reports no change exactly when the two sides
are equal (equal values serialize identically). -/
def diffPreview (cur : Option Workload) (desired : Workload) : String :=
  (match cur with
   | none => "<no current resource>"
   | some c => "<current " ++ c.nsName ++ "/" ++ c.name ++ ">") ++
  " -> <desired " ++ desired.nsName ++ "/" ++ desired.name ++ ">"

/-- Modelled from the spec: Workload.DeprecationWarnings of pkg/apis is
not under src and the spec does not describe any deprecated field;
modelled as producing no warnings. -/
def Workload.DeprecationWarnings (_w : Workload) : List String := []

/-- Modelled from the spec: Workload.Validate of pkg/apis is not under src
and the spec does not describe its checks; modelled as producing no
errors. -/
def Workload.Validate (_w : Workload) : List String := []

/-- Embeds WorkloadOptions.LoadInputWorkload (workload.go lines 621-637):
the workload is read from the file at FilePath; when opening fails and the
path is "-" it is read from stdin instead. -/
def LoadInputWorkload (opts : WorkloadOptions) (env : ClusterEnv) : Except CErr Workload :=
  match lookupA env.files opts.filePath with
  | some (some w) => .ok w
  | some none => .error (.msg ("unable to load file " ++ quoteStr opts.filePath))
  | none =>
      if opts.filePath = "-" then
        match env.stdin with
        | some w => .ok w
        | none => .error (.msg ("unable to load file " ++ quoteStr "-"))
      else .error (.msg ("unable to open file " ++ quoteStr opts.filePath))

/-- The client Update call and its aftermath in WorkloadOptions.Update
(workload.go lines 560-570): a conflict is reported specially and
silenced, any other error is returned unchanged, and okToUpdate is
reset to false on failure. -/
def updateSubmit (env : ClusterEnv) (desired : Workload) (out : List String) (prompted : Bool) :
    Bool × ExecOut :=
  match env.updateErr with
  | some .conflict =>
      (false, ⟨.error (SilenceError .conflict), [.update desired], out ++ [conflictMsg], prompted⟩)
  | some e => (false, ⟨.error ⟨e, false⟩, [.update desired], out, prompted⟩)
  | none => (true, ⟨.ok (), [.update desired], out ++ [updatedMsg desired.name], prompted⟩)

/-- Embeds WorkloadOptions.Update (workload.go lines 515-571): prints
deprecation warnings, diffs the desired workload against the current one,
skips the update when nothing changed, prints the diff and the notices,
confirms intent (refusing to prompt when input came from stdin), and
submits the update.  Returns okToUpdate and the result trace. -/
def WorkloadOptions.Update (opts : WorkloadOptions) (env : ClusterEnv) (notices : List String)
    (cur desired : Workload) : Bool × ExecOut :=
  let out0 := desired.DeprecationWarnings.map (fun m => "WARNING: " ++ m)
  if cur = desired then
    (false, ⟨.ok (), [], out0 ++ [unchangedMsg], false⟩)
  else
    let out1 := out0 ++ ["Update workload:", diffPreview (some cur) desired] ++
      notices.map (fun m => "NOTICE: " ++ m)
    if ¬ opts.yes then
      if opts.filePath = "-" then
        (false, ⟨.ok (), [], out1 ++ [cannotConfirmMsg], false⟩)
      else
        match env.promptAnswer with
        | some true => updateSubmit env desired out1 true
        | _ => (false, ⟨.ok (), [], out1 ++ [skippingMsg desired.name], true⟩)
    else updateSubmit env desired out1 false

/-- The client Create call and its aftermath in WorkloadOptions.Create
(workload.go lines 613-618): an error is returned unchanged (okToCreate
keeps the confirmed value). -/
def createSubmit (env : ClusterEnv) (desired : Workload) (out : List String) (prompted : Bool) :
    Bool × ExecOut :=
  match env.createErr with
  | some e => (true, ⟨.error ⟨e, false⟩, [.create desired], out, prompted⟩)
  | none => (true, ⟨.ok (), [.create desired], out ++ [createdMsg desired.name], prompted⟩)

/-- Embeds WorkloadOptions.Create (workload.go lines 573-619): prints
deprecation warnings, the diff of the desired workload against nothing,
and the notices, confirms intent (refusing to prompt when input came from
stdin), and submits the create.  Returns okToCreate and the result
trace. -/
def WorkloadOptions.Create (opts : WorkloadOptions) (env : ClusterEnv) (notices : List String)
    (desired : Workload) : Bool × ExecOut :=
  let out1 := desired.DeprecationWarnings.map (fun m => "WARNING: " ++ m) ++
    ["Create workload:", diffPreview none desired] ++
    notices.map (fun m => "NOTICE: " ++ m)
  if ¬ opts.yes then
    if opts.filePath = "-" then
      (false, ⟨.ok (), [], out1 ++ [cannotConfirmMsg], false⟩)
    else
      match env.promptAnswer with
      | some true => createSubmit env desired out1 true
      | _ => (false, ⟨.ok (), [], out1 ++ [skippingMsg desired.name], true⟩)
  else createSubmit env desired out1 false

/-- Lookup of a status condition by type. -/
def lookupCond : List Condition → String → Option Condition
  | [], _ => none
  | c :: rest, t => if c.condType = t then some c else lookupCond rest t

/-- Modelled from the spec: cartov1alpha1.WorkloadReadyConditionFunc of
pkg/apis is not under src; per the spec's watch-based polling loop and the
in-src test expectations, a Ready condition of status True resolves the
wait successfully, status False resolves it with the error "Failed to
become ready: " followed by the condition message, and anything else keeps
waiting. -/
def WorkloadReadyConditionFunc (w : Workload) : Option (Except String Unit) :=
  match lookupCond w.conditions "Ready" with
  | some c =>
      if c.status = "True" then some (.ok ())
      else if c.status = "False" then
        some (.error ("Failed to become ready: " ++ c.message))
      else none
  | none => none

/-- Modelled from the spec: wait.UntilCondition of pkg/cli-runtime/wait is
not under src; it consumes watch events until the condition function
resolves, and reports nothing when the events are exhausted before
that. -/
def UntilCondition : List Workload → Option (Except String Unit)
  | [] => none
  | w :: ws =>
      match WorkloadReadyConditionFunc w with
      | some r => some r
      | none => UntilCondition ws

/-- A worker raced by the wait logic of WorkloadCreateOptions.Exec. -/
inductive WaitWorker where
  | condWatcher
  | logTailer
deriving DecidableEq, Repr

/-- The worker list built by WorkloadCreateOptions.Exec (workload_create.go
lines 136-155): the Ready-condition watcher, plus a log tailer when
--tail or --tail-timestamp was requested. -/
def waitWorkers (opts : WorkloadOptions) : List WaitWorker :=
  [.condWatcher] ++ (if opts.tail || opts.tailTimestamps then [.logTailer] else [])

/-- Modelled from the spec: wait.Race of pkg/cli-runtime/wait is not under
src; it races the workers against the deadline and returns the first
result.  The log tailer only returns once the context ends, so only the
condition watcher can resolve the race before the deadline; `none` is the
deadline elapsing (the events list holds the events delivered before the
deadline). -/
def Race (timeout : Nat) (workers : List WaitWorker) (events : List Workload) :
    Option (Except String Unit) :=
  let _ := timeout
  if workers.contains .condWatcher then UntilCondition events else none

/-- The wait block of WorkloadCreateOptions.Exec (workload_create.go lines
133-167): prints the waiting line, races the workers bounded by
--wait-timeout, and maps the outcome to output and returned error. -/
def waitPhase (opts : WorkloadOptions) (env : ClusterEnv) : Except CmdError Unit × List String :=
  match Race opts.waitTimeout (waitWorkers opts) env.watchEvents with
  | some (.ok _) => (.ok (), [waitingMsg opts.name, readyMsg opts.name])
  | some (.error m) =>
      (.error (SilenceError (.msg m)), [waitingMsg opts.name, "Error: " ++ m])
  | none =>
      (.error (SilenceError .deadline),
       [waitingMsg opts.name, timeoutMsg opts.waitTimeout opts.name])

/-- DisplayCommandNextSteps (workload.go lines 188-196); the client default
namespace is "default". -/
def DisplayCommandNextSteps (w : Workload) : List String :=
  if w.nsName ≠ "default" then
    ["To see logs:   \"tanzu apps workload tail " ++ w.name ++ " --namespace " ++ w.nsName ++ "\"",
     "To get status: \"tanzu apps workload get " ++ w.name ++ " --namespace " ++ w.nsName ++ "\""]
  else
    ["To see logs:   \"tanzu apps workload tail " ++ w.name ++ "\"",
     "To get status: \"tanzu apps workload get " ++ w.name ++ "\""]

/-- The name/namespace fixup of WorkloadCreateOptions.Exec (lines 65-70):
a name argument overrides the loaded name; the namespace is overridden
when the loaded one is empty or the --namespace flag was set. -/
def namedWorkload (ctx : CmdCtx) (opts : WorkloadOptions) (w0 : Workload) : Workload :=
  let w1 := if opts.name ≠ "" then { w0 with name := opts.name } else w0
  if w1.nsName = "" ∨ flagChanged ctx "namespace" then { w1 with nsName := opts.nsName } else w1

/-- The source image of a workload spec, empty when there is no source
(workload_create.go line 98 reads Spec.Source == nil or Source.Image). -/
def sourceImageOf (s : WorkloadSpec) : String :=
  match s.source with
  | none => ""
  | some src => src.image

/-- Modelled from the spec: cli.DryRunResource prints the resource as YAML
through an external printer; abstracted to a marker naming the resource. -/
def dryRunOutput (w : Workload) : String :=
  "<dry-run " ++ w.nsName ++ "/" ++ w.name ++ ">"

/-- The tail of WorkloadCreateOptions.Exec after the create was submitted
(workload_create.go lines 121-168): propagate a create error, print the
next steps when the create was confirmed, and run the wait phase when
--wait or a tail flag was given. -/
def CreateExecSubmit (opts : WorkloadOptions) (env : ClusterEnv) (notices : List String)
    (desired : Workload) : ExecOut :=
  let r := WorkloadOptions.Create opts env notices desired
  let okToCreate := r.1
  let c := r.2
  match c.res with
  | .error e => ⟨.error e, c.writes, c.output, c.prompted⟩
  | .ok _ =>
      let out1 := c.output ++ (if okToCreate then DisplayCommandNextSteps desired else [])
      if okToCreate ∧ (opts.wait ∨ opts.tail ∨ opts.tailTimestamps) then
        let wp := waitPhase opts env
        ⟨wp.1, c.writes, out1 ++ wp.2, c.prompted⟩
      else ⟨.ok (), c.writes, out1, c.prompted⟩

/-- The middle of WorkloadCreateOptions.Exec after the existence check
(workload_create.go lines 86-168): reject an existing workload of the
same name and namespace, merge the flags onto the loaded workload,
validate, handle --dry-run, publish local source, and submit. -/
def CreateExecAfterGet (ctx : CmdCtx) (opts : WorkloadOptions) (env : ClusterEnv)
    (existing w2 : Workload) : ExecOut :=
  if existing.name = w2.name ∧ existing.nsName = w2.nsName then
    ⟨.error (SilenceError (.msg "")), [], [alreadyExistsMsg w2.nsName w2.name], false⟩
  else
    let dn := ApplyOptionsToWorkload ctx opts w2
    let desired := dn.1
    let notices := dn.2
    if desired.Validate ≠ [] ∨ (opts.localPath ≠ "" ∧ sourceImageOf desired.spec = "") then
      ⟨.error ⟨.msg "validation failed", false⟩, [], [], false⟩
    else if opts.dryRun then
      ⟨.ok (), [], [dryRunOutput desired], false⟩
    else if opts.localPath = "" then
      CreateExecSubmit opts env notices desired
    else
      match env.publish with
      | .error e => ⟨.error ⟨e, false⟩, [], [], false⟩
      | .ok none => ⟨.ok (), [], [skippingMsg desired.name], false⟩
      | .ok (some w3) => CreateExecSubmit opts env notices w3

/-- Embeds WorkloadCreateOptions.Exec (workload_create.go lines 56-169):
load the workload from the file or stdin, fix up name and namespace,
check for an existing workload (returning any non-not-found Get error
unchanged, and validating the namespace on not-found), then merge,
validate, confirm, create and wait. -/
def CreateExec (ctx : CmdCtx) (opts : WorkloadOptions) (env : ClusterEnv) : ExecOut :=
  match (if opts.filePath ≠ "" then LoadInputWorkload opts env else .ok emptyWorkload :
      Except CErr Workload) with
  | .error e => ⟨.error ⟨e, false⟩, [], [], false⟩
  | .ok w0 =>
      let w2 := namedWorkload ctx opts w0
      match env.getExisting with
      | .error e =>
          if e = .notFound then
            match env.nsGet with
            | some _ => ⟨.error ⟨e, false⟩, [], [nsNotFoundMsg opts.nsName], false⟩
            | none => CreateExecAfterGet ctx opts env emptyWorkload w2
          else ⟨.error ⟨e, false⟩, [], [], false⟩
      | .ok ex => CreateExecAfterGet ctx opts env ex w2

/-- A cobra command restricted to the fields NewWorkloadCommand sets. -/
structure CobraCommand where
  use : String
  aliases : List String
  subcommands : List String
deriving DecidableEq, Repr

/-- Embeds NewWorkloadCommand (workload.go lines 57-82): the "workload"
command with its aliases and its subcommands, in registration order. -/
def NewWorkloadCommand : CobraCommand :=
  { use := "workload"
    aliases := ["workloads", "wld"]
    subcommands := ["list", "get", "tail", "create", "update", "apply", "delete"] }

/-- The git source of a workload spec, if any. -/
def gitOf (s : WorkloadSpec) : Option GitSource :=
  match s.source with
  | none => none
  | some src => src.git

/-- The limit quantity recorded for a resource name, if any. -/
def limitOf (s : WorkloadSpec) (k : String) : Option String :=
  match s.resources with
  | none => none
  | some r => lookupA r.limits k

/-- The desired workload a create invocation submits: flags reconciled
onto the loaded-then-renamed workload (here the empty one, for a create
without --file-path). -/
def desiredOf (ctx : CmdCtx) (opts : WorkloadOptions) : Workload :=
  (ApplyOptionsToWorkload ctx opts (namedWorkload ctx opts emptyWorkload)).1

/-- The notices stashed while building the desired workload of a create
invocation without --file-path. -/
def noticesOf (ctx : CmdCtx) (opts : WorkloadOptions) : List String :=
  (ApplyOptionsToWorkload ctx opts (namedWorkload ctx opts emptyWorkload)).2

/-- The lines a confirmed, successful create prints before its wait phase
begins. -/
def createLeadOut (ctx : CmdCtx) (opts : WorkloadOptions) : List String :=
  ["Create workload:", diffPreview none (desiredOf ctx opts)] ++
  (noticesOf ctx opts).map (fun m => "NOTICE: " ++ m) ++
  [createdMsg (desiredOf ctx opts).name] ++
  DisplayCommandNextSteps (desiredOf ctx opts)

/-- A sample workload used to instantiate the theorems below. -/
def sampleWorkload : Workload :=
  { name := "my-workload", nsName := "default", labels := [("app", "old")] }

/-- An environment whose stdin parses to the sample workload. -/
def sampleStdinEnv : ClusterEnv := { stdin := some sampleWorkload }

/-- Options reading from stdin without --yes. -/
def stdinNoYesOpts : WorkloadOptions := { filePath := "-", yes := false }

/-- The all-defaults environment. -/
def emptyEnv : ClusterEnv := {}

/-- Options of a confirmed create that waits with a short timeout. -/
def waitOpts : WorkloadOptions :=
  { name := "my-workload", nsName := "default", yes := true, wait := true, waitTimeout := 1 }

/-- An environment where the requested workload does not exist yet. -/
def notFoundEnv : ClusterEnv := { getExisting := .error .notFound }

/-- A workload whose Ready condition is False with a message. -/
def readyFalseWorkload : Workload :=
  { name := "my-workload", nsName := "default",
    conditions := [⟨"Ready", "False", "OopsieDoodle", "boom"⟩] }

/-- An environment delivering one watch event with a False Ready
condition. -/
def falseCondEnv : ClusterEnv :=
  { getExisting := .error .notFound, watchEvents := [readyFalseWorkload] }

/-- An environment where the requested workload already exists. -/
def existsEnv : ClusterEnv :=
  { getExisting := .ok { name := "my-workload", nsName := "default" } }

/-- Options naming the sample workload. -/
def createOpts : WorkloadOptions := { name := "my-workload", nsName := "default" }

/-- An environment whose Update call reports a conflict. -/
def conflictEnv : ClusterEnv := { updateErr := some .conflict }


theorem lookupA_setKV {β : Type} (m : List (String × β)) (k : String) (v : β) :
    lookupA (setKV m k v) k = some v := by
  induction m with
  | nil => simp [setKV, lookupA]
  | cons p rest ih =>
      obtain ⟨k', v'⟩ := p
      by_cases h : k' = k <;> simp [setKV, lookupA, h, ih]

theorem lookupA_delKV {β : Type} (m : List (String × β)) (k : String) :
    lookupA (delKV m k) k = none := by
  induction m with
  | nil => simp [delKV, lookupA]
  | cons p rest ih =>
      obtain ⟨k', v'⟩ := p
      by_cases h : k' = k <;>
        simp_all [delKV, lookupA, List.filter_cons]

theorem lookupEnvVar_set (l : List EnvVar) (e : EnvVar) :
    lookupEnvVar (setEnvVar l e) e.name = some e.value := by
  induction l with
  | nil => simp [setEnvVar, lookupEnvVar]
  | cons x rest ih => by_cases h : x.name = e.name <;> simp [setEnvVar, lookupEnvVar, h, ih]

theorem lookupEnvVar_del (l : List EnvVar) (n : String) :
    lookupEnvVar (delEnvVar l n) n = none := by
  induction l with
  | nil => simp [delEnvVar, lookupEnvVar]
  | cons x rest ih => by_cases h : x.name = n <;> simp_all [delEnvVar, lookupEnvVar, List.filter_cons]

theorem lookupParam_set (l : List Param) (n : String) (v : ParamValue) :
    lookupParam (setParam l n v) n = some v := by
  induction l with
  | nil => simp [setParam, lookupParam]
  | cons p rest ih => by_cases h : p.name = n <;> simp [setParam, lookupParam, h, ih]

theorem lookupParam_del (l : List Param) (n : String) :
    lookupParam (delParam l n) n = none := by
  induction l with
  | nil => simp [delParam, lookupParam]
  | cons p rest ih => by_cases h : p.name = n <;> simp_all [delParam, lookupParam, List.filter_cons]

theorem lookupClaim_set (l : List ServiceClaim) (c : ServiceClaim) :
    lookupClaim (setClaim l c) c.name = some c.ref := by
  induction l with
  | nil => simp [setClaim, lookupClaim]
  | cons x rest ih => by_cases h : x.name = c.name <;> simp [setClaim, lookupClaim, h, ih]

theorem lookupClaim_del (l : List ServiceClaim) (n : String) :
    lookupClaim (delClaim l n) n = none := by
  induction l with
  | nil => simp [delClaim, lookupClaim]
  | cons x rest ih => by_cases h : x.name = n <;> simp_all [delClaim, lookupClaim, List.filter_cons]

/-- C7: the workload command provides exactly the subcommands create,
update, apply, get, list, tail and delete, under the "workload" command
with aliases "workloads" and "wld". -/
theorem c7_workload_subcommands :
    NewWorkloadCommand.use = "workload" ∧
    NewWorkloadCommand.aliases = ["workloads", "wld"] ∧
    NewWorkloadCommand.subcommands.Perm
      ["create", "update", "apply", "get", "list", "tail", "delete"] := by
  refine ⟨rfl, rfl, ?_⟩
  decide

/-- C4: the wait logic of the create command races exactly the
Ready-condition watcher when neither --tail nor --tail-timestamp is set,
and exactly that watcher plus one log tailer when tailing is requested;
never any other worker. -/
theorem c4_wait_workers (opts : WorkloadOptions) :
    waitWorkers opts =
      (if opts.tail || opts.tailTimestamps then [WaitWorker.condWatcher, WaitWorker.logTailer]
       else [WaitWorker.condWatcher]) ∧
    (waitWorkers opts).length ≤ 2 := by
  cases h1 : opts.tail <;> cases h2 : opts.tailTimestamps <;> simp [waitWorkers, h1, h2]

theorem c4_wait_workers_w :
    waitWorkers { tail := true } = [WaitWorker.condWatcher, WaitWorker.logTailer] ∧
    waitWorkers {} = [WaitWorker.condWatcher] := by
  constructor
  · have h := (c4_wait_workers { tail := true }).1
    simpa using h
  · have h := (c4_wait_workers {}).1
    simpa using h

/-- C1: the desired resource is the workload loaded from the file path
(stdin when the path is "-"), with each set CLI flag then reconciled field
by field on top: labels, annotations, params, env, build-env and service
refs are set by "key=value" and deleted by a trailing "-", git source,
image and resource limits are overridden by their flags; in each case the
flag wins over whatever the loaded workload carried. -/
theorem c1_merge_reconciliation :
    (∀ opts env w, opts.filePath = "-" → lookupA env.files "-" = none → env.stdin = some w →
        LoadInputWorkload opts env = .ok w) ∧
    (∀ opts env w, lookupA env.files opts.filePath = some (some w) →
        LoadInputWorkload opts env = .ok w) ∧
    (∀ l k v w, DeletableKeyValue l = [k, v] →
        lookupA (ApplyOptionsToWorkload emptyCtx { labels := [l] } w).1.labels k = some v) ∧
    (∀ l k w, DeletableKeyValue l = [k] →
        lookupA (ApplyOptionsToWorkload emptyCtx { labels := [l] } w).1.labels k = none) ∧
    (∀ l k v w, DeletableKeyValue l = [k, v] →
        lookupA (ApplyOptionsToWorkload emptyCtx { annotations := [l] } w).1.spec.annotationParams k
          = some v) ∧
    (∀ l k w, DeletableKeyValue l = [k] →
        lookupA (ApplyOptionsToWorkload emptyCtx { annotations := [l] } w).1.spec.annotationParams k
          = none) ∧
    (∀ l k v w, DeletableKeyValue l = [k, v] →
        lookupParam (ApplyOptionsToWorkload emptyCtx { params := [l] } w).1.spec.params k
          = some (.str v)) ∧
    (∀ l k w, DeletableKeyValue l = [k] →
        lookupParam (ApplyOptionsToWorkload emptyCtx { params := [l] } w).1.spec.params k = none) ∧
    (∀ s n v w, DeletableEnvVar s = (⟨n, v⟩, false) →
        lookupEnvVar (ApplyOptionsToWorkload emptyCtx { env := [s] } w).1.spec.env n = some v) ∧
    (∀ s n w, DeletableEnvVar s = (⟨n, ""⟩, true) →
        lookupEnvVar (ApplyOptionsToWorkload emptyCtx { env := [s] } w).1.spec.env n = none) ∧
    (∀ s n v w, DeletableEnvVar s = (⟨n, v⟩, false) →
        lookupEnvVar (ApplyOptionsToWorkload emptyCtx { buildEnv := [s] } w).1.spec.buildEnv n
          = some v) ∧
    (∀ s n w, DeletableEnvVar s = (⟨n, ""⟩, true) →
        lookupEnvVar (ApplyOptionsToWorkload emptyCtx { buildEnv := [s] } w).1.spec.buildEnv n
          = none) ∧
    (∀ r k v w, DeletableKeyValue r = [k, v] →
        lookupClaim (ApplyOptionsToWorkload emptyCtx { serviceRefs := [r] } w).1.spec.serviceClaims k
          = some v) ∧
    (∀ r k w, DeletableKeyValue r = [k] →
        lookupClaim (ApplyOptionsToWorkload emptyCtx { serviceRefs := [r] } w).1.spec.serviceClaims k
          = none) ∧
    (∀ u b w, u ≠ "" →
        gitOf (ApplyOptionsToWorkload emptyCtx { gitRepo := u, gitBranch := b } w).1.spec =
          some { url := u, ref := { branch := b, commit := "", tag := "" } }) ∧
    (∀ i w, i ≠ "" → (ApplyOptionsToWorkload emptyCtx { image := i } w).1.spec.image = i) ∧
    (∀ q w, q ≠ "" →
        limitOf (ApplyOptionsToWorkload emptyCtx { limitCPU := q } w).1.spec "cpu" = some q) := by
  refine ⟨?_, ?_, ?_, ?_, ?_, ?_, ?_, ?_, ?_, ?_, ?_, ?_, ?_, ?_, ?_, ?_, ?_⟩
  · intro opts env w hf hnof hst
    simp [LoadInputWorkload, hf, hnof, hst]
  · intro opts env w hfile
    simp [LoadInputWorkload, hfile]
  · intro l k v w h
    simp [ApplyOptionsToWorkload, applyLabelFlag, h, Workload.MergeLabels, flagChanged, emptyCtx,
      lookupA_setKV]
  · intro l k w h
    simp [ApplyOptionsToWorkload, applyLabelFlag, h, flagChanged, emptyCtx, lookupA_delKV]
  · intro l k v w h
    simp [ApplyOptionsToWorkload, applyAnnotationFlag, h, WorkloadSpec.MergeAnnotationParams,
      flagChanged, emptyCtx, lookupA_setKV]
  · intro l k w h
    simp [ApplyOptionsToWorkload, applyAnnotationFlag, h, WorkloadSpec.RemoveAnnotationParams,
      flagChanged, emptyCtx, lookupA_delKV]
  · intro l k v w h
    simp [ApplyOptionsToWorkload, applyParamFlag, h, WorkloadSpec.MergeParams, flagChanged,
      emptyCtx, lookupParam_set]
  · intro l k w h
    simp [ApplyOptionsToWorkload, applyParamFlag, h, WorkloadSpec.RemoveParam, flagChanged,
      emptyCtx, lookupParam_del]
  · intro s n v w h
    have hv := lookupEnvVar_set w.spec.env ⟨n, v⟩
    simp [ApplyOptionsToWorkload, applyEnvFlag, h, WorkloadSpec.MergeEnv, flagChanged, emptyCtx]
    exact hv
  · intro s n w h
    simp [ApplyOptionsToWorkload, applyEnvFlag, h, WorkloadSpec.RemoveEnv, flagChanged, emptyCtx,
      lookupEnvVar_del]
  · intro s n v w h
    have hv := lookupEnvVar_set w.spec.buildEnv ⟨n, v⟩
    simp [ApplyOptionsToWorkload, applyBuildEnvFlag, h, WorkloadSpec.MergeBuildEnv, flagChanged,
      emptyCtx]
    exact hv
  · intro s n w h
    simp [ApplyOptionsToWorkload, applyBuildEnvFlag, h, WorkloadSpec.RemoveBuildEnv, flagChanged,
      emptyCtx, lookupEnvVar_del]
  · intro r k v w h
    have hv := lookupClaim_set w.spec.serviceClaims ⟨k, v⟩
    simp [ApplyOptionsToWorkload, applyServiceRefFlag, h, WorkloadSpec.MergeServiceClaim,
      ObjectReference, Workload.mergeClaimNote, Workload.deleteClaimNote, flagChanged, emptyCtx]
    rcases objectReferenceNote v with _ | nv <;> simp [ObjectReference] <;> exact hv
  · intro r k w h
    simp [ApplyOptionsToWorkload, applyServiceRefFlag, h, WorkloadSpec.DeleteServiceClaim,
      Workload.deleteClaimNote, flagChanged, emptyCtx, lookupClaim_del]
  · intro u b w hu
    simp [ApplyOptionsToWorkload, hu, WorkloadSpec.MergeGit, gitOf, flagChanged, emptyCtx]
  · intro i w hi
    simp [ApplyOptionsToWorkload, hi, WorkloadSpec.MergeImage, flagChanged, emptyCtx]
  · intro q w hq
    rcases hres : w.spec.resources with _ | r <;>
      simp [ApplyOptionsToWorkload, hq, WorkloadSpec.MergeResources, limitOf, hres, mergeKVs,
        flagChanged, emptyCtx, lookupA_setKV, lookupA]

theorem c1_merge_reconciliation_w :
    lookupA (ApplyOptionsToWorkload emptyCtx { labels := ["app=web"] } sampleWorkload).1.labels
      "app" = some "web" ∧
    lookupA (ApplyOptionsToWorkload emptyCtx { labels := ["app-"] } sampleWorkload).1.labels
      "app" = none ∧
    LoadInputWorkload stdinNoYesOpts sampleStdinEnv = .ok sampleWorkload := by
  refine ⟨?_, ?_, ?_⟩
  · exact c1_merge_reconciliation.2.2.1 "app=web" "app" "web" sampleWorkload (by decide)
  · exact c1_merge_reconciliation.2.2.2.1 "app-" "app" sampleWorkload (by decide)
  · exact c1_merge_reconciliation.1 stdinNoYesOpts sampleStdinEnv sampleWorkload rfl rfl rfl

/-- C2: the update flow diffs the desired workload against the current
one; when the diff reports no change it prints only "Workload is
unchanged, skipping update" and performs no cluster write, and whenever an
update is submitted the change preview was printed first. -/
theorem c2_update_diff (opts : WorkloadOptions) (env : ClusterEnv) (notices : List String)
    (cur desired : Workload) :
    (cur = desired →
        WorkloadOptions.Update opts env notices cur desired =
          (false, ⟨.ok (), [], [unchangedMsg], false⟩)) ∧
    ((WorkloadOptions.Update opts env notices cur desired).2.writes ≠ [] →
        "Update workload:" ∈ (WorkloadOptions.Update opts env notices cur desired).2.output ∧
        diffPreview (some cur) desired ∈
          (WorkloadOptions.Update opts env notices cur desired).2.output) := by
  constructor
  · intro h
    simp [WorkloadOptions.Update, h, Workload.DeprecationWarnings]
  · intro hw
    by_cases hc : cur = desired
    · simp [WorkloadOptions.Update, hc, Workload.DeprecationWarnings] at hw
    · by_cases hy : opts.yes
      · rcases hue : env.updateErr with _ | e
        · simp [WorkloadOptions.Update, hc, hy, updateSubmit, hue, Workload.DeprecationWarnings]
        · cases e <;>
            simp [WorkloadOptions.Update, hc, hy, updateSubmit, hue, Workload.DeprecationWarnings]
      · by_cases hfp : opts.filePath = "-"
        · simp [WorkloadOptions.Update, hc, hy, hfp, Workload.DeprecationWarnings] at hw
        · rcases hpa : env.promptAnswer with _ | b
          · simp [WorkloadOptions.Update, hc, hy, hfp, hpa, Workload.DeprecationWarnings] at hw
          · cases b
            · simp [WorkloadOptions.Update, hc, hy, hfp, hpa, Workload.DeprecationWarnings] at hw
            · rcases hue : env.updateErr with _ | e
              · simp [WorkloadOptions.Update, hc, hy, hfp, hpa, updateSubmit, hue,
                  Workload.DeprecationWarnings]
              · cases e <;>
                  simp [WorkloadOptions.Update, hc, hy, hfp, hpa, updateSubmit, hue,
                    Workload.DeprecationWarnings]

theorem c2_update_diff_w :
    WorkloadOptions.Update { yes := true } emptyEnv [] sampleWorkload sampleWorkload =
      (false, ⟨.ok (), [], [unchangedMsg], false⟩) :=
  (c2_update_diff { yes := true } emptyEnv [] sampleWorkload sampleWorkload).1 rfl

/-- C10: when the client Update call reports a conflict, the update flow
prints the conflict line, reports okToUpdate as false and returns a
silenced conflict error; any other update failure is returned unchanged
(and okToUpdate is still false). -/
theorem c10_update_conflict (opts : WorkloadOptions) (env : ClusterEnv) (notices : List String)
    (cur desired : Workload) (hchange : cur ≠ desired) (hyes : opts.yes = true) :
    (env.updateErr = some .conflict →
        (WorkloadOptions.Update opts env notices cur desired).1 = false ∧
        (WorkloadOptions.Update opts env notices cur desired).2.res =
          .error (SilenceError .conflict) ∧
        conflictMsg ∈ (WorkloadOptions.Update opts env notices cur desired).2.output) ∧
    (∀ e, env.updateErr = some e → e ≠ .conflict →
        (WorkloadOptions.Update opts env notices cur desired).1 = false ∧
        (WorkloadOptions.Update opts env notices cur desired).2.res = .error ⟨e, false⟩) := by
  constructor
  · intro hue
    simp [WorkloadOptions.Update, hchange, hyes, updateSubmit, hue, Workload.DeprecationWarnings]
  · intro e hue hne
    cases e <;>
      simp_all [WorkloadOptions.Update, hchange, hyes, updateSubmit, hue,
        Workload.DeprecationWarnings]

theorem c10_update_conflict_w :
    (WorkloadOptions.Update { yes := true } conflictEnv [] emptyWorkload sampleWorkload).1
        = false ∧
    (WorkloadOptions.Update { yes := true } conflictEnv [] emptyWorkload sampleWorkload).2.res
        = .error (SilenceError .conflict) ∧
    conflictMsg ∈
      (WorkloadOptions.Update { yes := true } conflictEnv [] emptyWorkload sampleWorkload).2.output :=
  (c10_update_conflict { yes := true } conflictEnv [] emptyWorkload sampleWorkload
    (by decide) rfl).1 rfl

/-- C9 counterexample: an update read from stdin without --yes whose diff
reports no change prints "Workload is unchanged, skipping update" and not
"Skipping workload, cannot confirm intent", refuting the claim as
stated. -/
theorem c9_counterexample :
    stdinNoYesOpts.yes = false ∧ stdinNoYesOpts.filePath = "-" ∧
    cannotConfirmMsg ∉
      (WorkloadOptions.Update stdinNoYesOpts emptyEnv [] emptyWorkload emptyWorkload).2.output := by
  refine ⟨rfl, rfl, ?_⟩
  decide

/-- C9 (amended): for every create, and every update whose diff reports a
change, whose workload was read from stdin (--file-path "-") without
--yes, the command prints "Skipping workload, cannot confirm intent",
performs no cluster write and returns nil without prompting; and an
interactive prompt is only ever shown when the input did not come from
stdin. -/
theorem c9_stdin_no_confirm (opts : WorkloadOptions) (env : ClusterEnv) (notices : List String)
    (cur desired : Workload) (hyes : opts.yes = false) (hstdin : opts.filePath = "-") :
    (cur ≠ desired →
        (WorkloadOptions.Update opts env notices cur desired).2.res = .ok () ∧
        (WorkloadOptions.Update opts env notices cur desired).2.writes = [] ∧
        cannotConfirmMsg ∈ (WorkloadOptions.Update opts env notices cur desired).2.output ∧
        (WorkloadOptions.Update opts env notices cur desired).2.prompted = false) ∧
    ((WorkloadOptions.Create opts env notices desired).2.res = .ok () ∧
     (WorkloadOptions.Create opts env notices desired).2.writes = [] ∧
     cannotConfirmMsg ∈ (WorkloadOptions.Create opts env notices desired).2.output ∧
     (WorkloadOptions.Create opts env notices desired).2.prompted = false) ∧
    (∀ opts2 env2 notices2 cur2 des2,
        (WorkloadOptions.Update opts2 env2 notices2 cur2 des2).2.prompted = true →
          opts2.filePath ≠ "-") ∧
    (∀ opts2 env2 notices2 des2,
        (WorkloadOptions.Create opts2 env2 notices2 des2).2.prompted = true →
          opts2.filePath ≠ "-") := by
  refine ⟨?_, ?_, ?_, ?_⟩
  · intro hc
    simp [WorkloadOptions.Update, hc, hyes, hstdin, Workload.DeprecationWarnings]
  · simp [WorkloadOptions.Create, hyes, hstdin, Workload.DeprecationWarnings]
  · intro o2 e2 n2 c2 d2 hp
    by_cases hc : c2 = d2
    · simp [WorkloadOptions.Update, hc, Workload.DeprecationWarnings] at hp
    · by_cases hy : o2.yes
      · rcases hue : e2.updateErr with _ | er
        · simp [WorkloadOptions.Update, hc, hy, updateSubmit, hue,
            Workload.DeprecationWarnings] at hp
        · cases er <;>
            simp [WorkloadOptions.Update, hc, hy, updateSubmit, hue,
              Workload.DeprecationWarnings] at hp
      · by_cases hfp : o2.filePath = "-"
        · simp [WorkloadOptions.Update, hc, hy, hfp, Workload.DeprecationWarnings] at hp
        · exact hfp
  · intro o2 e2 n2 d2 hp
    by_cases hy : o2.yes
    · rcases hce : e2.createErr with _ | er <;>
        simp [WorkloadOptions.Create, hy, createSubmit, hce,
          Workload.DeprecationWarnings] at hp
    · by_cases hfp : o2.filePath = "-"
      · simp [WorkloadOptions.Create, hy, hfp, Workload.DeprecationWarnings] at hp
      · exact hfp

theorem c9_stdin_no_confirm_w :
    (WorkloadOptions.Create stdinNoYesOpts emptyEnv [] sampleWorkload).2.res = .ok () ∧
    (WorkloadOptions.Create stdinNoYesOpts emptyEnv [] sampleWorkload).2.writes = [] ∧
    cannotConfirmMsg ∈ (WorkloadOptions.Create stdinNoYesOpts emptyEnv [] sampleWorkload).2.output ∧
    (WorkloadOptions.Create stdinNoYesOpts emptyEnv [] sampleWorkload).2.prompted = false :=
  (c9_stdin_no_confirm stdinNoYesOpts emptyEnv [] emptyWorkload sampleWorkload rfl rfl).2.1

/-- C6: for a confirmed create, the object submitted through the client is
exactly the desired workload whose preview was printed; a failed Create
call returns that error unchanged, with no further cluster writes. -/
theorem c6_create_submits_preview (opts : WorkloadOptions) (env : ClusterEnv)
    (notices : List String) (desired : Workload) :
    (∀ w, ClusterOp.create w ∈ (WorkloadOptions.Create opts env notices desired).2.writes →
        w = desired) ∧
    ((WorkloadOptions.Create opts env notices desired).2.writes ≠ [] →
        (opts.yes = true ∨ env.promptAnswer = some true) ∧
        diffPreview none desired ∈ (WorkloadOptions.Create opts env notices desired).2.output) ∧
    (∀ e, env.createErr = some e →
        (WorkloadOptions.Create opts env notices desired).2.writes ≠ [] →
        (WorkloadOptions.Create opts env notices desired).2.res = .error ⟨e, false⟩ ∧
        (WorkloadOptions.Create opts env notices desired).2.writes =
          [ClusterOp.create desired]) ∧
    (∀ err, (WorkloadOptions.Create opts env notices desired).2.res = .error err →
        CreateExecSubmit opts env notices desired =
          ⟨.error err, (WorkloadOptions.Create opts env notices desired).2.writes,
           (WorkloadOptions.Create opts env notices desired).2.output,
           (WorkloadOptions.Create opts env notices desired).2.prompted⟩) := by
  refine ⟨?_, ?_, ?_, ?_⟩
  · intro w hw
    by_cases hy : opts.yes
    · rcases hce : env.createErr with _ | er <;>
        simp_all [WorkloadOptions.Create, hy, createSubmit, hce, Workload.DeprecationWarnings]
    · by_cases hfp : opts.filePath = "-"
      · simp_all [WorkloadOptions.Create, hy, hfp, Workload.DeprecationWarnings]
      · rcases hpa : env.promptAnswer with _ | b
        · simp_all [WorkloadOptions.Create, hy, hfp, hpa, Workload.DeprecationWarnings]
        · cases b
          · simp_all [WorkloadOptions.Create, hy, hfp, hpa, Workload.DeprecationWarnings]
          · rcases hce : env.createErr with _ | er <;>
              simp_all [WorkloadOptions.Create, hy, hfp, hpa, createSubmit, hce,
                Workload.DeprecationWarnings]
  · intro hw
    by_cases hy : opts.yes
    · rcases hce : env.createErr with _ | er <;>
        simp_all [WorkloadOptions.Create, hy, createSubmit, hce, Workload.DeprecationWarnings]
    · by_cases hfp : opts.filePath = "-"
      · simp_all [WorkloadOptions.Create, hy, hfp, Workload.DeprecationWarnings]
      · rcases hpa : env.promptAnswer with _ | b
        · simp_all [WorkloadOptions.Create, hy, hfp, hpa, Workload.DeprecationWarnings]
        · cases b
          · simp_all [WorkloadOptions.Create, hy, hfp, hpa, Workload.DeprecationWarnings]
          · rcases hce : env.createErr with _ | er <;>
              simp_all [WorkloadOptions.Create, hy, hfp, hpa, createSubmit, hce,
                Workload.DeprecationWarnings]
  · intro e hce hw
    by_cases hy : opts.yes
    · simp_all [WorkloadOptions.Create, hy, createSubmit, hce, Workload.DeprecationWarnings]
    · by_cases hfp : opts.filePath = "-"
      · simp_all [WorkloadOptions.Create, hy, hfp, Workload.DeprecationWarnings]
      · rcases hpa : env.promptAnswer with _ | b
        · simp_all [WorkloadOptions.Create, hy, hfp, hpa, Workload.DeprecationWarnings]
        · cases b
          · simp_all [WorkloadOptions.Create, hy, hfp, hpa, Workload.DeprecationWarnings]
          · simp_all [WorkloadOptions.Create, hy, hfp, hpa, createSubmit, hce,
              Workload.DeprecationWarnings]
  · intro err herr
    simp [CreateExecSubmit, herr]

theorem c6_create_submits_preview_w :
    (WorkloadOptions.Create { yes := true } emptyEnv [] sampleWorkload).2.writes =
      [ClusterOp.create sampleWorkload] ∧
    diffPreview none sampleWorkload ∈
      (WorkloadOptions.Create { yes := true } emptyEnv [] sampleWorkload).2.output := by
  refine ⟨by decide, ?_⟩
  exact ((c6_create_submits_preview { yes := true } emptyEnv [] sampleWorkload).2.1
    (by decide)).2

/-- C8: a create against an existing workload of the same name and
namespace prints the already-exists error and returns a silenced error
without merging flags or writing anything; a Get failure other than
not-found is returned unchanged. -/
theorem c8_create_existing (ctx : CmdCtx) (opts : WorkloadOptions) (env : ClusterEnv)
    (w0 : Workload)
    (hload : (if opts.filePath ≠ "" then LoadInputWorkload opts env else Except.ok emptyWorkload)
      = Except.ok w0) :
    (∀ ex, env.getExisting = .ok ex →
        ex.name = (namedWorkload ctx opts w0).name →
        ex.nsName = (namedWorkload ctx opts w0).nsName →
        CreateExec ctx opts env =
          ⟨.error (SilenceError (.msg "")), [],
           [alreadyExistsMsg (namedWorkload ctx opts w0).nsName (namedWorkload ctx opts w0).name],
           false⟩) ∧
    (∀ e, env.getExisting = .error e → e ≠ .notFound →
        CreateExec ctx opts env = ⟨.error ⟨e, false⟩, [], [], false⟩) := by
  constructor
  · intro ex hget h1 h2
    simp [CreateExec, hload, hget, CreateExecAfterGet, h1, h2]
  · intro e hget hne
    simp [CreateExec, hload, hget, hne]

theorem c8_create_existing_w :
    CreateExec emptyCtx createOpts existsEnv =
      ⟨.error (SilenceError (.msg "")), [],
       [alreadyExistsMsg "default" "my-workload"], false⟩ := by
  have h := (c8_create_existing emptyCtx createOpts existsEnv emptyWorkload rfl).1
    { name := "my-workload", nsName := "default" } rfl (by decide) (by decide)
  simpa using h

theorem waitWorkers_has_watcher (opts : WorkloadOptions) :
    WaitWorker.condWatcher ∈ waitWorkers opts := by
  cases h1 : opts.tail <;> cases h2 : opts.tailTimestamps <;> simp [waitWorkers, h1, h2]

theorem namedWorkload_name (ctx : CmdCtx) (opts : WorkloadOptions) (w0 : Workload)
    (h : opts.name ≠ "") : (namedWorkload ctx opts w0).name = opts.name := by
  by_cases h2 : ({ w0 with name := opts.name } : Workload).nsName = "" ∨ flagChanged ctx "namespace" <;>
    simp [namedWorkload, h, h2]

/-- Every confirmed create without --file-path nor --local-path whose Get
reported not-found and whose Create call succeeded reaches the wait phase
when --wait or a tail flag is set; the result is the wait outcome appended
to the create output. -/
theorem createExec_reaches_wait (ctx : CmdCtx) (opts : WorkloadOptions) (env : ClusterEnv)
    (hfp : opts.filePath = "") (hname : opts.name ≠ "")
    (hget : env.getExisting = .error .notFound) (hns : env.nsGet = none)
    (hlocal : opts.localPath = "") (hdry : opts.dryRun = false)
    (hyes : opts.yes = true) (hce : env.createErr = none)
    (hwait : opts.wait = true ∨ opts.tail = true ∨ opts.tailTimestamps = true) :
    CreateExec ctx opts env =
      ⟨(waitPhase opts env).1, [ClusterOp.create (desiredOf ctx opts)],
       createLeadOut ctx opts ++ (waitPhase opts env).2, false⟩ := by
  have hload : (if opts.filePath ≠ "" then LoadInputWorkload opts env
      else Except.ok emptyWorkload) = Except.ok emptyWorkload := by
    simp [hfp]
  have hne : ¬ (emptyWorkload.name = (namedWorkload ctx opts emptyWorkload).name ∧
      emptyWorkload.nsName = (namedWorkload ctx opts emptyWorkload).nsName) := by
    rw [namedWorkload_name ctx opts emptyWorkload hname]
    intro hcontra
    exact hname (hcontra.1.symm)
  simp only [CreateExec, hload, hget, hns]
  simp only [CreateExecAfterGet, hne, if_false, if_neg hne]
  simp [CreateExecAfterGet, hne, hlocal, hdry, Workload.Validate, CreateExecSubmit,
    WorkloadOptions.Create, hyes, createSubmit, hce, hwait, desiredOf, noticesOf,
    createLeadOut, Workload.DeprecationWarnings]

/-- C3: a confirmed, successful create with --wait (or a tail flag) blocks
on the watch stream: if the events are exhausted before the Ready
condition resolves, the deadline elapses, the timeout line naming
--wait-timeout and the workload is printed and a (silenced) error is
returned; if an event resolves the Ready condition to true, the ready line
is printed and nil is returned.  The --wait-timeout default is 10 minutes. -/
theorem c3_wait_ready_or_timeout (ctx : CmdCtx) (opts : WorkloadOptions) (env : ClusterEnv)
    (hfp : opts.filePath = "") (hname : opts.name ≠ "")
    (hget : env.getExisting = .error .notFound) (hns : env.nsGet = none)
    (hlocal : opts.localPath = "") (hdry : opts.dryRun = false)
    (hyes : opts.yes = true) (hce : env.createErr = none)
    (hwait : opts.wait = true ∨ opts.tail = true ∨ opts.tailTimestamps = true) :
    (UntilCondition env.watchEvents = none →
        (CreateExec ctx opts env).res = .error (SilenceError .deadline) ∧
        timeoutMsg opts.waitTimeout opts.name ∈ (CreateExec ctx opts env).output) ∧
    (UntilCondition env.watchEvents = some (.ok ()) →
        (CreateExec ctx opts env).res = .ok () ∧
        readyMsg opts.name ∈ (CreateExec ctx opts env).output) ∧
    defaultWaitTimeout = 600000000000 := by
  have hrw := createExec_reaches_wait ctx opts env hfp hname hget hns hlocal hdry hyes hce hwait
  have hcw := waitWorkers_has_watcher opts
  refine ⟨?_, ?_, by norm_num [defaultWaitTimeout]⟩
  · intro huc
    rw [hrw]
    simp [waitPhase, Race, hcw, huc]
  · intro huc
    rw [hrw]
    simp [waitPhase, Race, hcw, huc]

theorem c3_wait_ready_or_timeout_w :
    (CreateExec emptyCtx waitOpts notFoundEnv).res = .error (SilenceError .deadline) ∧
    timeoutMsg 1 "my-workload" ∈ (CreateExec emptyCtx waitOpts notFoundEnv).output := by
  have h := (c3_wait_ready_or_timeout emptyCtx waitOpts notFoundEnv rfl (by decide) rfl rfl rfl
    rfl rfl rfl (Or.inl rfl)).1 rfl
  simpa [waitOpts] using h

/-- C5: when a watch event delivers the workload with its Ready condition
False, the wait resolves before the deadline: the command prints "Error:
Failed to become ready: " followed by the condition message and returns a
silenced error carrying that message (not the deadline error). -/
theorem c5_wait_false_condition (ctx : CmdCtx) (opts : WorkloadOptions) (env : ClusterEnv)
    (hfp : opts.filePath = "") (hname : opts.name ≠ "")
    (hget : env.getExisting = .error .notFound) (hns : env.nsGet = none)
    (hlocal : opts.localPath = "") (hdry : opts.dryRun = false)
    (hyes : opts.yes = true) (hce : env.createErr = none)
    (hwait : opts.wait = true ∨ opts.tail = true ∨ opts.tailTimestamps = true)
    (wv : Workload) (c : Condition)
    (hev : env.watchEvents = [wv]) (hcond : lookupCond wv.conditions "Ready" = some c)
    (hst : c.status = "False") :
    (CreateExec ctx opts env).res =
      .error (SilenceError (.msg ("Failed to become ready: " ++ c.message))) ∧
    ("Error: " ++ ("Failed to become ready: " ++ c.message)) ∈
      (CreateExec ctx opts env).output ∧
    (CreateExec ctx opts env).res ≠ .error (SilenceError .deadline) := by
  have hrw := createExec_reaches_wait ctx opts env hfp hname hget hns hlocal hdry hyes hce hwait
  have hcw := waitWorkers_has_watcher opts
  have huc : UntilCondition env.watchEvents =
      some (.error ("Failed to become ready: " ++ c.message)) := by
    simp [hev, UntilCondition, WorkloadReadyConditionFunc, hcond, hst]
  rw [hrw]
  simp [waitPhase, Race, hcw, huc, SilenceError]

theorem c5_wait_false_condition_w :
    (CreateExec emptyCtx waitOpts falseCondEnv).res =
      .error (SilenceError (.msg "Failed to become ready: boom")) ∧
    ("Error: " ++ "Failed to become ready: boom") ∈
      (CreateExec emptyCtx waitOpts falseCondEnv).output := by
  have h := c5_wait_false_condition emptyCtx waitOpts falseCondEnv rfl (by decide) rfl rfl rfl
    rfl rfl rfl (Or.inl rfl) readyFalseWorkload ⟨"Ready", "False", "OopsieDoodle", "boom"⟩
    rfl rfl rfl
  exact ⟨h.1, h.2.1⟩
